import Mathlib

/-!
Verification of the `miio/mi_camera_hlc7_miot.py` module (Xiaomi Mi Camera
isa.camera.hlc7 MIoT client) against its natural-language specification.

The module is a protocol mapping and command-dispatch table: a static
capability-address table (`_MAPPING`), enumerated option sets, a status
decoder (`CameraStatus`), and one-shot command wrappers that shape a payload
and hand it to the transport (`self.send`, `self.set_property`,
`self.call_action`).  We embed the payload-shaping logic shallowly: each
wrapper becomes a pure Lean function from its arguments to the (command
name, payload) pair it would pass to the transport, and the status decoder
becomes a pure function from the batch property-read result to the snapshot.
External collaborators (the transport itself, DNS resolution via
`socket.gethostbyname`, URL parsing via `urllib.parse.urlparse`) enter as
explicit parameters or as small models of their documented behaviour.
-/

namespace MiCameraHlc7

/-- A raw protocol value as stored in a status snapshot.  Python values are
dynamically typed; the snapshot dictionary built by `status()` holds
booleans, numbers, strings, or `None` (the sentinel stored when an
individual property read failed).  `vnone` embeds Python's `None`. -/
inductive PropValue where
  | vbool : Bool → PropValue
  | vint : Int → PropValue
  | vstr : String → PropValue
  | vnone : PropValue
deriving DecidableEq, Repr

/-- Python truthiness of a raw value: `bool(x)`.  `None`, `False`, zero and
the empty string are falsy; everything else is truthy. -/
def PropValue.truthy : PropValue → Bool
  | .vbool b => b
  | .vint n => n != 0
  | .vstr s => s != ""
  | .vnone => false

/-- One entry of the batch property-read result returned by
`get_properties_for_mapping()`: a `did` (the symbolic capability name), the
reported `value`, and the per-property status `code` (0 means success). -/
structure PropResult where
  did : String
  value : PropValue
  code : Int
deriving DecidableEq, Repr

/-- Container for status reports (`CameraStatus.__init__` stores the
dictionary built by `status()`).  The Python dict is embedded as an
association list; `List.lookup` models `dict[key]` access (with `none`
standing for the `KeyError` raised on a missing key). -/
structure CameraStatus where
  data : List (String × PropValue)
deriving DecidableEq, Repr

/-- `MiCameraHlc7Miot.status`: builds the snapshot dictionary
`{prop["did"]: prop["value"] if prop["code"] == 0 else None for prop in
self.get_properties_for_mapping()}` — a failed read (non-zero code) stores
`None` for that key rather than aborting. -/
def statusOf (props : List PropResult) : CameraStatus :=
  ⟨props.map fun p => (p.did, if p.code = 0 then p.value else PropValue.vnone)⟩

/-- `CameraStatus.power`: `return "On" if self.data["power"] else "Off"`.
The `Option` result models the `KeyError` on a snapshot lacking the key;
a present value is mapped through Python truthiness. -/
def CameraStatus.power (st : CameraStatus) : Option String :=
  (st.data.lookup "power").map fun v => if v.truthy then "On" else "Off"

/-- `CameraStatus.image_rollover`: `return self.data["image_rollover"]`. -/
def CameraStatus.image_rollover (st : CameraStatus) : Option PropValue :=
  st.data.lookup "image_rollover"

/-- `CameraStatus.night_shot`: `return self.data["night_shot"]`. -/
def CameraStatus.night_shot (st : CameraStatus) : Option PropValue :=
  st.data.lookup "night_shot"

/-- A capability address: a service id together with a property id
(`{"siid": s, "piid": p}`) or an action id (`{"siid": s, "aiid": a}`). -/
inductive MiotEntry where
  | prop : Nat → Nat → MiotEntry
  | action : Nat → Nat → MiotEntry
deriving DecidableEq, Repr

/-- The capability address table `_MAPPING` of the module, entry for entry. -/
def MAPPING : List (String × MiotEntry) :=
  [("power", .prop 2 1),
   ("image_rollover", .prop 2 2),
   ("night_shot", .prop 2 3),
   ("time_watermark", .prop 2 4),
   ("recording_mode", .prop 2 7),
   ("indicator_light", .prop 3 1),
   ("sdcard_status", .prop 4 1),
   ("sdcard_total_space", .prop 4 2),
   ("sdcard_free_space", .prop 4 3),
   ("sdcard_used_space", .prop 4 4),
   ("sdcard_format", .action 4 1),
   ("sdcard_pop_up", .action 4 2),
   ("motion_detection_status", .prop 5 1),
   ("motion_alarm_interval", .prop 5 2),
   ("motion_detection_sensitivity", .prop 5 3),
   ("motion_detection_start_time", .prop 5 4),
   ("motion_detection_end_time", .prop 5 5),
   ("timezone", .prop 6 2),
   ("rect", .prop 6 3),
   ("custom_voice", .prop 6 4),
   ("set_custom_voice", .prop 6 5),
   ("download_voice", .prop 6 6),
   ("delete_voice", .prop 6 7),
   ("switch_voice", .prop 6 8),
   ("max_connect", .prop 6 9),
   ("restart_device", .action 6 1),
   ("upload_recode", .action 6 2),
   ("speaker_voice", .action 6 3),
   ("upload_log", .action 6 4),
   ("p2p_stream_start", .action 7 1),
   ("p2p_stream_stop", .action 7 2),
   ("alexa_video_stream_status", .prop 8 9),
   ("alexa_video_rtsp_stream_start", .action 8 1),
   ("alexa_video_rtsp_stream_stop", .action 8 2),
   ("alexa_video_rtsp_stream_configuration", .action 8 3)]

/-- The capability names the module passes to the mapping-based property
write primitive `self.set_property` (in `on` and `off`). -/
def usedPropertyWriteNames : List String := ["power"]

/-- The capability names the module passes to the mapping-based action
invocation primitive `self.call_action` (in `restart`, `p2p_stream_start`,
`p2p_stream_stop`, `alexa_video_rtsp_stream_start`,
`alexa_video_rtsp_stream_configuration`). -/
def usedActionNames : List String :=
  ["restart_device", "p2p_stream_start", "p2p_stream_stop",
   "alexa_video_rtsp_stream_start", "alexa_video_rtsp_stream_configuration"]

/-- `Direction`: the rotation direction enumeration. -/
inductive Direction where
  | Left | Right | Up | Down
deriving DecidableEq, Repr

/-- The literal protocol code of each `Direction` member
(`Left = 1, Right = 2, Up = 3, Down = 4`). -/
def Direction.value : Direction → Int
  | .Left => 1
  | .Right => 2
  | .Up => 3
  | .Down => 4

/-- `MiCameraHlc7Miot.rotate`:
`self.send("set_motor", {"operation": direction.value})` — the command name
and the single-field payload dictionary handed to the transport. -/
def rotate (d : Direction) : String × List (String × Int) :=
  ("set_motor", [("operation", d.value)])

/-- `MotionDetectionSensitivity`: the two-member sensitivity enumeration. -/
inductive MotionDetectionSensitivity where
  | High | Low
deriving DecidableEq, Repr

/-- The literal protocol code of each sensitivity member
(`High = 3, Low = 1`). -/
def MotionDetectionSensitivity.value : MotionDetectionSensitivity → Int
  | .High => 3
  | .Low => 1

/-- `CONST_HIGH_SENSITIVITY = [MotionDetectionSensitivity.High] * 32`. -/
def CONST_HIGH_SENSITIVITY : List MotionDetectionSensitivity :=
  List.replicate 32 .High

/-- `CONST_LOW_SENSITIVITY = [MotionDetectionSensitivity.Low] * 32`. -/
def CONST_LOW_SENSITIVITY : List MotionDetectionSensitivity :=
  List.replicate 32 .Low

/-- `MiCameraHlc7Miot.set_motion_sensitivity`:
`self.send("set_motion_region", CONST_HIGH_SENSITIVITY if sensitivity ==
MotionDetectionSensitivity.High else CONST_LOW_SENSITIVITY)`. -/
def set_motion_sensitivity (s : MotionDetectionSensitivity) :
    String × List MotionDetectionSensitivity :=
  ("set_motion_region",
   if s = .High then CONST_HIGH_SENSITIVITY else CONST_LOW_SENSITIVITY)

/-- The components of a parsed share URI that `set_nas_config` reads off
the `urllib.parse.urlparse` result: `scheme`, `hostname`, `username`,
`password` and `path`.  The three name-like components are optional, as in
Python where they are `None` when absent from the URI. -/
structure ParsedUrl where
  scheme : String
  hostname : Option String
  username : Option String
  password : Option String
  path : String
deriving DecidableEq, Repr

/-- Models `urllib.parse.urlparse(None)`: the `None` argument is coerced
through the bytes code path (`_coerce_args` → `_decode_args`, where a falsy
argument becomes the empty string), producing a parse result whose scheme,
hostname, username, password and path are all empty/absent.  In particular
its scheme compares unequal to `"smb"`. -/
def urlparseNone : ParsedUrl := ⟨"", none, none, none, ""⟩

/-- `int(ipaddress.ip_address("a.b.c.d"))` on a dotted quad given as its
octet list: the big-endian 32-bit integer of the octets. -/
def ipv4ToInt (octets : List Nat) : Nat :=
  octets.foldl (fun acc o => acc * 256 + o) 0

/-- The address transform of `set_nas_config` applied to the octets of the
resolved IPv4 address `ip`:
`reversed_ip = ".".join(reversed(ip.split(".")))` followed by
`addr = int(ipaddress.ip_address(reversed_ip))` — reverse the octet list,
then read it as a big-endian integer. -/
def encodeAddr (octets : List Nat) : Nat :=
  ipv4ToInt octets.reverse

/-- `share.path.lstrip("/")`: strip every leading `/` character. -/
def lstripSlash (s : String) : String :=
  ⟨s.data.dropWhile (· == '/')⟩

/-- The `params["share"]` dictionary built by `set_nas_config` for an SMB
share.  Field for field: `type`, `name`, `addr`, `dir`, `group`, `user`,
`pass`. -/
structure ShareParams where
  type : Int
  name : Option String
  addr : Nat
  dir : String
  group : String
  user : Option String
  pass : Option String
deriving DecidableEq, Repr

/-- The `params` dictionary sent by `set_nas_config`: the three always
present fields, and the optional `share` field (present exactly when the
share URI scheme is `"smb"`). -/
structure NasParams where
  state : Int
  sync_interval : Int
  video_retention_time : Int
  share : Option ShareParams
deriving DecidableEq, Repr

/-- The locally raised error of `set_nas_config`: `socket.gethostbyname`
failing on the share hostname (`socket.gaierror`; a `None` hostname raises
a `TypeError` — either way a local exception before any transport call). -/
inductive NasConfigError where
  | resolutionError
deriving DecidableEq, Repr

/-- `socket.gethostbyname(share.hostname)` with an explicit resolver
oracle for DNS: a `None` hostname or a failed lookup is a local error. -/
def resolveHost (resolve : String → Option (List Nat)) :
    Option String → Option (List Nat)
  | none => none
  | some h => resolve h

/-- `MiCameraHlc7Miot.set_nas_config` on an already parsed share URI:
builds `params` with `state`, `sync_interval` and `video_retention_time`;
when the scheme is `"smb"` it resolves the hostname, byte-reverses the
address into `addr` and adds the `share` dictionary; an exception from
resolution propagates (`Except.error`) before any transport call. -/
def set_nas_config (resolve : String → Option (List Nat)) (state : Int)
    (share : ParsedUrl) (sync_interval : Int) (video_retention_time : Int) :
    Except NasConfigError NasParams :=
  if share.scheme = "smb" then
    match resolveHost resolve share.hostname with
    | none => .error .resolutionError
    | some octets =>
        .ok ⟨state, sync_interval, video_retention_time,
             some ⟨1, share.hostname, encodeAddr octets,
                   lstripSlash share.path, "WORKGROUP",
                   share.username, share.password⟩⟩
  else
    .ok ⟨state, sync_interval, video_retention_time, none⟩

/-- The transport call made at the end of `set_nas_config`:
`self.send("nas_set_config", params)`.  `none` means the method raised
before reaching `self.send`, so the transport send primitive was never
invoked on that call. -/
def nasSend (r : Except NasConfigError NasParams) :
    Option (String × NasParams) :=
  match r with
  | .ok p => some ("nas_set_config", p)
  | .error _ => none

/-- Helper: looking up the field of any entry of a batch read with
pairwise-distinct names in the snapshot built by `status` yields the
reported value on success and the `None` sentinel on failure. -/
theorem lookup_statusOf (props : List PropResult)
    (hnd : (props.map PropResult.did).Nodup)
    (p : PropResult) (hp : p ∈ props) :
    (statusOf props).data.lookup p.did =
      some (if p.code = 0 then p.value else PropValue.vnone) := by
  induction props with
  | nil => cases hp
  | cons x xs ih =>
    rw [List.map_cons, List.nodup_cons] at hnd
    rcases List.mem_cons.mp hp with rfl | hmem
    · simp [statusOf, List.lookup]
    · have hne : p.did ≠ x.did := by
        intro h
        exact hnd.1 (h ▸ List.mem_map_of_mem PropResult.did hmem)
      have hbeq : (p.did == x.did) = false := beq_eq_false_iff_ne.mpr hne
      simpa [statusOf, List.lookup, hbeq] using ih hnd.2 hmem

/-- C1 counterexample: a snapshot in which the `"power"` property read
failed (non-zero status code, so `None` is stored) does NOT yield an
absent result from the `power` accessor — it yields the string `"Off"`,
because `None` is falsy and the accessor is
`"On" if self.data["power"] else "Off"`. -/
theorem c1_power_failed_read_counterexample :
    CameraStatus.power (statusOf [⟨"power", PropValue.vbool true, -1⟩]) =
      some "Off" := by
  decide

/-- C1 (amended): the `power` accessor returns `"On"` exactly when the
stored raw value is truthy (boolean `true`, a non-zero number, a non-empty
string) and `"Off"` otherwise; the `None` sentinel stored for a failed
read is falsy, so a failed read yields `"Off"`, not an absent result. -/
theorem c1_power_truthiness (st : CameraStatus) (v : PropValue)
    (h : st.data.lookup "power" = some v) :
    st.power = some (if v.truthy then "On" else "Off") ∧
    PropValue.truthy PropValue.vnone = false := by
  constructor
  · simp [CameraStatus.power, h]
  · rfl

/-- Witness for `c1_power_truthiness` at a concrete snapshot. -/
theorem c1_power_truthiness_witness :
    CameraStatus.power (statusOf [⟨"power", PropValue.vint 1, 0⟩]) =
      some (if (PropValue.vint 1).truthy then "On" else "Off") ∧
    PropValue.truthy PropValue.vnone = false :=
  c1_power_truthiness (statusOf [⟨"power", PropValue.vint 1, 0⟩])
    (PropValue.vint 1) (by decide)

/-- C3: in a batch read with pairwise-distinct names in which exactly one
entry `f` carries a non-zero status code, the snapshot maps `f`'s field to
the absent-value sentinel (`None`) and maps every other field to exactly
the value reported for it; the snapshot is always produced (the function
is total), so no individual failure aborts it. -/
theorem c3_status_single_failure (props : List PropResult) (f : PropResult)
    (hnd : (props.map PropResult.did).Nodup)
    (hf : f ∈ props) (hfc : f.code ≠ 0)
    (huniq : ∀ q ∈ props, q.code ≠ 0 → q = f) :
    (statusOf props).data.lookup f.did = some PropValue.vnone ∧
    ∀ q ∈ props, q ≠ f →
      (statusOf props).data.lookup q.did = some q.value := by
  constructor
  · simpa [if_neg hfc] using lookup_statusOf props hnd f hf
  · intro q hq hne
    have hq0 : q.code = 0 := by
      by_contra h
      exact hne (huniq q hq h)
    simpa [hq0] using lookup_statusOf props hnd q hq

/-- A concrete three-property batch read in which only the
`image_rollover` read failed. -/
def demoProps : List PropResult :=
  [⟨"power", PropValue.vbool true, 0⟩,
   ⟨"image_rollover", PropValue.vint 180, -4004⟩,
   ⟨"night_shot", PropValue.vint 1, 0⟩]

/-- Witness for `c3_status_single_failure` on `demoProps`. -/
theorem c3_status_single_failure_witness :
    (statusOf demoProps).data.lookup "image_rollover" =
      some PropValue.vnone ∧
    (statusOf demoProps).data.lookup "power" =
      some (PropValue.vbool true) := by
  have h := c3_status_single_failure demoProps
    ⟨"image_rollover", PropValue.vint 180, -4004⟩
    (by decide) (by decide) (by decide) (by decide)
  exact ⟨h.1, h.2 ⟨"power", PropValue.vbool true, 0⟩ (by decide) (by decide)⟩

/-- C2: for an SMB share URI whose hostname resolves to the IPv4 address
`a.b.c.d`, the encoded `addr` field of the outgoing share payload is the
integer obtained by reversing the four octets and reading `[d, c, b, a]`
as a big-endian integer; in particular for `192.0.2.10` the encoding is
`167903424`. -/
theorem c2_nas_addr_encoding (resolve : String → Option (List Nat))
    (state si vrt : Int) (url : ParsedUrl) (a b c d : Nat)
    (hs : url.scheme = "smb")
    (hr : resolveHost resolve url.hostname = some [a, b, c, d]) :
    nasSend (set_nas_config resolve state url si vrt) =
      some ("nas_set_config",
        ⟨state, si, vrt,
         some ⟨1, url.hostname, ((d * 256 + c) * 256 + b) * 256 + a,
               lstripSlash url.path, "WORKGROUP",
               url.username, url.password⟩⟩) ∧
    encodeAddr [192, 0, 2, 10] = 167903424 := by
  refine ⟨?_, by decide⟩
  have henc : encodeAddr [a, b, c, d] =
      ((d * 256 + c) * 256 + b) * 256 + a := by
    simp [encodeAddr, ipv4ToInt, List.foldl]
  simp [set_nas_config, hs, hr, nasSend, henc]

/-- Witness for `c2_nas_addr_encoding` at a host resolving to
`192.0.2.10`: the encoded address is `167903424`. -/
theorem c2_nas_addr_encoding_witness :
    nasSend (set_nas_config (fun _ => some [192, 0, 2, 10]) 3
        ⟨"smb", some "nas.local", some "user", some "secret", "/videos/cam"⟩
        300 604800) =
      some ("nas_set_config",
        ⟨3, 300, 604800,
         some ⟨1, some "nas.local", ((10 * 256 + 2) * 256 + 0) * 256 + 192,
               lstripSlash "/videos/cam", "WORKGROUP",
               some "user", some "secret"⟩⟩) ∧
    encodeAddr [192, 0, 2, 10] = 167903424 :=
  c2_nas_addr_encoding (fun _ => some [192, 0, 2, 10]) 3 300 604800
    ⟨"smb", some "nas.local", some "user", some "secret", "/videos/cam"⟩
    192 0 2 10 rfl rfl

/-- Tests whether a capability-table lookup result is a property entry. -/
def entryIsProp : Option MiotEntry → Bool
  | some (.prop _ _) => true
  | _ => false

/-- Tests whether a capability-table lookup result is an action entry. -/
def entryIsAction : Option MiotEntry → Bool
  | some (.action _ _) => true
  | _ => false

/-- C4: every capability name passed by a Command Surface operation to the
mapping-based property write primitive resolves in `_MAPPING` to a
service-id/property-id entry, and every name passed to the mapping-based
action invocation primitive resolves to a service-id/action-id entry
(property reads go through `get_properties_for_mapping`, which reads the
table itself). -/
theorem c4_mapping_covers_command_names :
    (usedPropertyWriteNames.all fun n =>
      entryIsProp (MAPPING.lookup n)) = true ∧
    (usedActionNames.all fun n =>
      entryIsAction (MAPPING.lookup n)) = true := by
  decide

/-- C5: `set_motion_sensitivity` sends the `set_motion_region` command
with a list of exactly 32 elements, each equal to the chosen sensitivity
literal (3 for `High`, 1 for `Low`), and the enumeration admits only
these two inputs. -/
theorem c5_motion_sensitivity (s : MotionDetectionSensitivity) :
    (set_motion_sensitivity s).1 = "set_motion_region" ∧
    (set_motion_sensitivity s).2 = List.replicate 32 s ∧
    (set_motion_sensitivity s).2.map MotionDetectionSensitivity.value =
      List.replicate 32 s.value ∧
    (s = .High ∨ s = .Low) := by
  cases s
  · exact ⟨rfl, rfl, by decide, Or.inl rfl⟩
  · exact ⟨rfl, rfl, by decide, Or.inr rfl⟩

/-- C6: `rotate` sends the `set_motor` command with a payload holding the
single field `operation` carrying the direction's literal code
(`Left = 1, Right = 2, Up = 3, Down = 4`) and nothing else. -/
theorem c6_rotate (d : Direction) :
    rotate d = ("set_motor", [("operation", d.value)]) ∧
    (rotate d).2.length = 1 ∧
    rotate .Left = ("set_motor", [("operation", 1)]) ∧
    rotate .Right = ("set_motor", [("operation", 2)]) ∧
    rotate .Up = ("set_motor", [("operation", 3)]) ∧
    rotate .Down = ("set_motor", [("operation", 4)]) :=
  ⟨rfl, rfl, rfl, rfl, rfl, rfl⟩

/-- C7: with a share URI whose scheme is not `"smb"`, `set_nas_config`
sends a payload carrying `state`, `sync_interval` and
`video_retention_time` with the `share` field absent — and the result is
the same for every resolver, so no hostname resolution or address
encoding is attempted. -/
theorem c7_non_smb_omits_share (resolve : String → Option (List Nat))
    (state si vrt : Int) (url : ParsedUrl) (h : url.scheme ≠ "smb") :
    set_nas_config resolve state url si vrt =
      .ok ⟨state, si, vrt, none⟩ ∧
    nasSend (set_nas_config resolve state url si vrt) =
      some ("nas_set_config", ⟨state, si, vrt, none⟩) := by
  have h1 : set_nas_config resolve state url si vrt =
      .ok ⟨state, si, vrt, none⟩ := by
    simp [set_nas_config, h]
  exact ⟨h1, by rw [h1]; rfl⟩

/-- Witness for `c7_non_smb_omits_share` at an NFS-scheme URI. -/
theorem c7_non_smb_omits_share_witness :
    set_nas_config (fun _ => some [192, 0, 2, 10]) 2
        ⟨"nfs", some "host", none, none, "/x"⟩ 3600 604800 =
      .ok ⟨2, 3600, 604800, none⟩ ∧
    nasSend (set_nas_config (fun _ => some [192, 0, 2, 10]) 2
        ⟨"nfs", some "host", none, none, "/x"⟩ 3600 604800) =
      some ("nas_set_config", ⟨2, 3600, 604800, none⟩) :=
  c7_non_smb_omits_share (fun _ => some [192, 0, 2, 10]) 2 3600 604800
    ⟨"nfs", some "host", none, none, "/x"⟩ (by decide)

/-- C8: with an SMB-scheme share URI whose hostname fails to resolve,
`set_nas_config` raises the resolution error locally and the transport
send primitive is never invoked on that call. -/
theorem c8_resolution_failure_no_send (resolve : String → Option (List Nat))
    (state si vrt : Int) (url : ParsedUrl)
    (hs : url.scheme = "smb")
    (hr : resolveHost resolve url.hostname = none) :
    set_nas_config resolve state url si vrt =
      .error .resolutionError ∧
    nasSend (set_nas_config resolve state url si vrt) = none := by
  have h1 : set_nas_config resolve state url si vrt =
      .error .resolutionError := by
    simp [set_nas_config, hs, hr]
  exact ⟨h1, by rw [h1]; rfl⟩

/-- Witness for `c8_resolution_failure_no_send` with a resolver that
fails on every hostname. -/
theorem c8_resolution_failure_no_send_witness :
    set_nas_config (fun _ => none) 3
        ⟨"smb", some "nas.invalid", none, none, "/share"⟩ 300 604800 =
      .error .resolutionError ∧
    nasSend (set_nas_config (fun _ => none) 3
        ⟨"smb", some "nas.invalid", none, none, "/share"⟩ 300 604800) =
      none :=
  c8_resolution_failure_no_send (fun _ => none) 3 300 604800
    ⟨"smb", some "nas.invalid", none, none, "/share"⟩ rfl rfl

/-- C9: calling `set_nas_config` with the share argument omitted
(`share = None`) raises no error: `urlparse(None)` yields an empty parse
result whose scheme is not `"smb"`, so the request is sent with the
`share` field omitted, whatever the resolver. -/
theorem c9_none_share_sends_without_share
    (resolve : String → Option (List Nat)) (state si vrt : Int) :
    urlparseNone.scheme ≠ "smb" ∧
    nasSend (set_nas_config resolve state urlparseNone si vrt) =
      some ("nas_set_config", ⟨state, si, vrt, none⟩) := by
  refine ⟨by decide, ?_⟩
  simp [set_nas_config, nasSend, urlparseNone]

/-- C10: for every `set_nas_config` call with an SMB-scheme share URI
whose hostname resolves, the outgoing `share` payload carries the
constants `type = 1` and `group = "WORKGROUP"`, its `dir` field is the
URI path with all leading `/` characters stripped, and its `name`, `user`
and `pass` fields are the URI's hostname, username and password. -/
theorem c10_smb_share_fields (resolve : String → Option (List Nat))
    (state si vrt : Int) (url : ParsedUrl) (octets : List Nat)
    (hs : url.scheme = "smb")
    (hr : resolveHost resolve url.hostname = some octets) :
    ∃ sh : ShareParams,
      nasSend (set_nas_config resolve state url si vrt) =
        some ("nas_set_config", ⟨state, si, vrt, some sh⟩) ∧
      sh.type = 1 ∧ sh.group = "WORKGROUP" ∧
      sh.dir = lstripSlash url.path ∧
      sh.name = url.hostname ∧
      sh.user = url.username ∧
      sh.pass = url.password := by
  refine ⟨⟨1, url.hostname, encodeAddr octets, lstripSlash url.path,
          "WORKGROUP", url.username, url.password⟩,
         ?_, rfl, rfl, rfl, rfl, rfl, rfl⟩
  simp [set_nas_config, hs, hr, nasSend]

/-- Witness for `c10_smb_share_fields` at a concrete SMB URI, checking in
particular that the doubled leading slashes of the path are stripped. -/
theorem c10_smb_share_fields_witness :
    ∃ sh : ShareParams,
      nasSend (set_nas_config (fun _ => some [10, 0, 0, 9]) 3
          ⟨"smb", some "box", some "u", some "pw", "//store/cam"⟩
          300 604800) =
        some ("nas_set_config", ⟨3, 300, 604800, some sh⟩) ∧
      sh.type = 1 ∧ sh.group = "WORKGROUP" ∧
      sh.dir = lstripSlash "//store/cam" ∧
      sh.name = some "box" ∧
      sh.user = some "u" ∧
      sh.pass = some "pw" :=
  c10_smb_share_fields (fun _ => some [10, 0, 0, 9]) 3 300 604800
    ⟨"smb", some "box", some "u", some "pw", "//store/cam"⟩
    [10, 0, 0, 9] rfl rfl

end MiCameraHlc7
